import Mathlib

/-!
Verification development for the Mercury 236 power meter communication
utility (src/mercury236.c).  The protocol engine is embedded shallowly:

* machine bytes are natural numbers below 256, frames are lists of bytes;
* the 16-bit checksum accumulator is a natural number below 2 ^ 16,
  with all bitwise operations taken over `Nat`;
* C `float` values are modelled as exact rationals (`ℚ`); the integer
  payloads decoded by the program are at most 32 bits wide, so every value
  the decoders produce is an integer divided by 100 or 1000 and the
  rational model is exact at the level of the decoded integers;
* the serial transport is an oracle: a list of optional byte buffers, one
  entry per issued command, where `none` models the 2 second channel
  timeout elapsing with no data;
* `exit` based aborts are modelled with `Except String`; process
  termination closes the open descriptor, which the session model records
  in the `fdReleased` field.
-/

namespace Mercury236

/-! ### Constants from mercury236.c -/

/-- Result code `OK = 0`. -/
def OK : Nat := 0

/-- Result code `ILLEGAL_CMD = 1`. -/
def ILLEGAL_CMD : Nat := 1

/-- Result code `INTERNAL_COUNTER_ERR = 2`. -/
def INTERNAL_COUNTER_ERR : Nat := 2

/-- Result code `PERMISSION_DENIED = 3`. -/
def PERMISSION_DENIED : Nat := 3

/-- Result code `CLOCK_ALREADY_CORRECTED = 4`. -/
def CLOCK_ALREADY_CORRECTED : Nat := 4

/-- Result code `CHANNEL_ISNT_OPEN = 5`. -/
def CHANNEL_ISNT_OPEN : Nat := 5

/-- Result code `WRONG_RESULT_SIZE = 256`. -/
def WRONG_RESULT_SIZE : Nat := 256

/-- Result code `WRONG_CRC = 257`. -/
def WRONG_CRC : Nat := 257

/-- Result code `CHECK_CHANNEL_TIME_OUT = 258`. -/
def CHECK_CHANNEL_TIME_OUT : Nat := 258

/-- Exit code `EXIT_OK = 0`. -/
def EXIT_OK : Nat := 0

/-- Exit code `EXIT_FAIL = 1`. -/
def EXIT_FAIL : Nat := 1

/-- RS485 address of the power meter (`PM_ADDRESS`, fixed to 0). -/
def PM_ADDRESS : Nat := 0

/-- The literal constant `TIME_OUT` of mercury236.c, line 24.  The source
comment reads "Mercury inter-command delay (ms)". -/
def TIME_OUT : Nat := 50

/-- The argument the program passes to `usleep` after transmitting each
command frame.  The C library function `usleep` sleeps for the given
number of MICROseconds, so this is the realised inter-command delay in
microseconds. -/
def usleepMicroseconds : Nat := TIME_OUT

/-- Power period selector `PP_RESET = 0` (consumption since reset). -/
def PP_RESET : Nat := 0

/-- Power period selector `PP_TODAY = 4`. -/
def PP_TODAY : Nat := 4

/-- Power period selector `PP_YESTERDAY = 5`. -/
def PP_YESTERDAY : Nat := 5

/-! ### Checksum engine (`ModRTU_CRC`) -/

/-- One bit iteration of the inner loop of `ModRTU_CRC`: if the least
significant bit of the accumulator is set, shift right by one and XOR
with `0xA001`, else just shift right by one. -/
def crcShift (crc : Nat) : Nat :=
  if crc &&& 1 ≠ 0 then (crc >>> 1) ^^^ 0xA001 else crc >>> 1

/-- `n` iterations of `crcShift` (the C source performs 8 per input byte). -/
def crcShifts : Nat → Nat → Nat
  | 0, crc => crc
  | n + 1, crc => crcShifts n (crcShift crc)

/-- `ModRTU_CRC` of mercury236.c, lines 174-192: accumulator starts at
`0xFFFF`; each input byte is XORed into the accumulator, followed by 8
inner bit iterations.  The final accumulator is returned as is, without
byte-order normalisation. -/
def ModRTU_CRC (buf : List Nat) : Nat :=
  buf.foldl (fun crc b => crcShifts 8 (crc ^^^ b)) 0xFFFF

/-- Claim-side model of the checksum, following the words of the spec
(section 4.1): initialise a 16-bit accumulator to `0xFFFF`; for each input
byte, XOR it into the low byte of the accumulator, then 8 times do: if the
low bit of the accumulator is set (`acc % 2 = 1`), shift right by one
(`acc / 2`) and XOR with `0xA001`, else just shift right by one; return
the final accumulator without byte-order normalisation. -/
def crcSpecRound (acc : Nat) : Nat :=
  if acc % 2 = 1 then (acc / 2) ^^^ 0xA001 else acc / 2

/-- `n` repetitions of `crcSpecRound` (the spec prescribes 8 per byte). -/
def crcSpecRounds : Nat → Nat → Nat
  | 0, acc => acc
  | n + 1, acc => crcSpecRounds n (crcSpecRound acc)

/-- The checksum as described by the words of the spec, to be compared
with the source-derived `ModRTU_CRC`. -/
def crcSpec (bytes : List Nat) : Nat :=
  bytes.foldl (fun acc b => crcSpecRounds 8 (acc ^^^ b)) 0xFFFF

/-! ### Value decoders (`B3F`, `B4F`) -/

/-- Twos-complement reading of a 32-bit pattern, modelling how the C
`int` receives the packed 32-bit value in `B4F`. -/
def toInt32 (n : Nat) : Int :=
  if n % 2 ^ 32 < 2 ^ 31 then ((n % 2 ^ 32 : Nat) : Int)
  else ((n % 2 ^ 32 : Nat) : Int) - 2 ^ 32

/-- `B3F` of mercury236.c, lines 383-387: pack the three bytes as
`(b0 << 16) | (b2 << 8) | b1` and divide by the scale factor.  The 24-bit
value always fits the C `int`, so the model uses the plain natural
number. -/
def B3F (b0 b1 b2 : Nat) (factor : ℚ) : ℚ :=
  (((b0 <<< 16) ||| (b2 <<< 8) ||| b1 : Nat) : ℚ) / factor

/-- `B4F` of mercury236.c, lines 390-394: pack the four bytes as
`(b1 << 24) | (b0 << 16) | (b3 << 8) | b2` into a C `int` and divide by
the scale factor.  For byte values `b1 ≥ 0x80` the packed pattern has its
top bit set and the 32-bit `int` receives a negative value; the model
reads the pattern in twos complement via `toInt32`. -/
def B4F (b0 b1 b2 b3 : Nat) (factor : ℚ) : ℚ :=
  ((toInt32 ((b1 <<< 24) ||| (b0 <<< 16) ||| (b3 <<< 8) ||| b2) : Int) : ℚ) / factor

/-! ### Frame building -/

/-- The two bytes of a 16-bit checksum value as they are laid out in
memory on the little-endian target: low byte first. -/
def crcBytes (c : Nat) : List Nat := [c % 256, c / 256 % 256]

/-- Build a complete request frame: the body bytes followed by the
checksum of the body, appended verbatim (low byte first, matching the
in-memory layout of the `UInt16 CRC` struct field under `#pragma
pack(1)`). -/
def buildFrame (body : List Nat) : List Nat :=
  body ++ crcBytes (ModRTU_CRC body)

/-- The probe request (`TestCmd` built in `checkChannel`):
address, command `0x00`, checksum.  4 bytes. -/
def testCmd : List Nat := buildFrame [PM_ADDRESS, 0x00]

/-- The connection initialisation request (`InitCmd` built in
`initConnection`): address, command `0x01`, access level `0x01`, the
fixed 6-byte password `01 01 01 01 01 01`, checksum.  11 bytes. -/
def initCmd : List Nat :=
  buildFrame [PM_ADDRESS, 0x01, 0x01, 0x01, 0x01, 0x01, 0x01, 0x01, 0x01]

/-- The connection termination request (`ByeCmd` built in
`closeConnection`): address, command `0x02`, checksum.  4 bytes. -/
def byeCmd : List Nat := buildFrame [PM_ADDRESS, 0x02]

/-- A generic `ReadParamCmd` frame: address, command, parameter id, BWRI
sub-selector, checksum.  6 bytes.  Each field is a C `byte`, so values
are truncated modulo 256 on assignment. -/
def readParamCmd (command paramId bwri : Nat) : List Nat :=
  buildFrame [PM_ADDRESS, command % 256, paramId % 256, bwri % 256]

/-- The voltage query frame built in `getU` (command 8, param `0x16`,
BWRI `0x11`). -/
def getUCmd : List Nat := readParamCmd 0x08 0x16 0x11

/-- The current query frame built in `getI` (BWRI `0x21`). -/
def getICmd : List Nat := readParamCmd 0x08 0x16 0x21

/-- The power factor query frame built in `getCosF` (BWRI `0x30`). -/
def getCosCmd : List Nat := readParamCmd 0x08 0x16 0x30

/-- The grid frequency query frame built in `getF` (BWRI `0x40`). -/
def getFCmd : List Nat := readParamCmd 0x08 0x16 0x40

/-- The phase angle query frame built in `getA` (BWRI `0x51`). -/
def getACmd : List Nat := readParamCmd 0x08 0x16 0x51

/-- The active power query frame built in `getP` (BWRI `0x00`). -/
def getPCmd : List Nat := readParamCmd 0x08 0x16 0x00

/-- The reactive power query frame built in `getS` (BWRI `0x08`). -/
def getSCmd : List Nat := readParamCmd 0x08 0x16 0x08

/-- The energy counter query frame built in `getW`: command `0x05`,
`paramId = (periodId << 4) | (month & 0xF)`, `BWRI = tariffNo`. -/
def getWCmd (periodId month tariffNo : Nat) : List Nat :=
  readParamCmd 0x05 ((periodId <<< 4) ||| (month &&& 0xF)) tariffNo

/-! ### Response validation -/

/-- A 16-bit value from its two in-memory bytes, low byte first. -/
def word16 (lo hi : Nat) : Nat := lo + 256 * hi

/-- The 16-bit checksum embedded in the last two bytes of a received
buffer, read the way the `UInt16 CRC` struct field reads it on the
little-endian target. -/
def embeddedCRC (buf : List Nat) : Nat :=
  word16 (buf.getD (buf.length - 2) 0) (buf.getD (buf.length - 1) 0)

/-- Common shape of the five `checkResult_*` validators: reject a length
mismatch, then reject a checksum mismatch (checksum recomputed over all
bytes except the trailing 2), then produce the shape-specific final
value. -/
def checkFrame (size : Nat) (final : List Nat → Nat) (buf : List Nat) : Nat :=
  if buf.length ≠ size then WRONG_RESULT_SIZE
  else if ModRTU_CRC (buf.take (size - 2)) ≠ embeddedCRC buf then WRONG_CRC
  else final buf

/-- `checkResult_1b`, mercury236.c lines 249-260: a 4-byte response;
on success return the low 4 bits of the status byte (`res->result & 0x0F`,
byte 1 of the buffer). -/
def checkResult_1b (buf : List Nat) : Nat :=
  checkFrame 4 (fun b => b.getD 1 0 &&& 0x0F) buf

/-- `checkResult_3b`, lines 263-274: a 6-byte response; return `OK`. -/
def checkResult_3b (buf : List Nat) : Nat :=
  checkFrame 6 (fun _ => OK) buf

/-- `checkResult_3x3b`, lines 277-288: a 12-byte response; return `OK`. -/
def checkResult_3x3b (buf : List Nat) : Nat :=
  checkFrame 12 (fun _ => OK) buf

/-- `checkResult_4x3b`, lines 291-302: a 15-byte response; return `OK`. -/
def checkResult_4x3b (buf : List Nat) : Nat :=
  checkFrame 15 (fun _ => OK) buf

/-- `checkResult_4x4b`, lines 305-316: a 19-byte response (address, four
4-byte fields, 2-byte checksum under `#pragma pack(1)`); return `OK`. -/
def checkResult_4x4b (buf : List Nat) : Nat :=
  checkFrame 19 (fun _ => OK) buf

/-- The five expected response shapes. -/
inductive RespShape where
  | r1b
  | r3b
  | r3x3b
  | r4x3b
  | r4x4b

/-- Exact byte length of each response shape. -/
def respSize : RespShape → Nat
  | .r1b => 4
  | .r3b => 6
  | .r3x3b => 12
  | .r4x3b => 15
  | .r4x4b => 19

/-- The validator the program runs for each response shape. -/
def checkResult : RespShape → List Nat → Nat
  | .r1b => checkResult_1b
  | .r3b => checkResult_3b
  | .r3x3b => checkResult_3x3b
  | .r4x3b => checkResult_4x3b
  | .r4x4b => checkResult_4x4b

/-! ### Session controller model

The serial device is modelled as an oracle: a list of optional byte
buffers, one entry per issued command in order, where `none` means that
the 2 second `select` timeout elapsed with no data.  A missing entry is
treated as a timeout as well. -/

/-- 3-phase vector of decoded values (`P3V`). -/
structure P3V where
  p1 : ℚ
  p2 : ℚ
  p3 : ℚ
deriving DecidableEq

/-- 3-phase vector with the all-phase sum (`P3VS`). -/
structure P3VS where
  sum : ℚ
  p1 : ℚ
  p2 : ℚ
  p3 : ℚ
deriving DecidableEq

/-- The ten local result variables of `main` (mercury236.c lines
721-723).  They are stack locals and start out with indeterminate
contents, so the session model is parameterised by their initial
values. -/
structure MeterState where
  U : P3V
  I : P3V
  A : P3V
  C : P3VS
  P : P3VS
  S : P3VS
  PR : P3VS
  PY : P3VS
  PT : P3VS
  f : ℚ
deriving DecidableEq

/-- The message `nb_read` prints before aborting when the channel times
out. -/
def chTimeoutMsg : String := "Communication channel timeout."

/-- `checkChannel`, lines 319-339: send the probe, read with timeout via
`nb_read_impl`; a timeout yields the result code `CHECK_CHANNEL_TIME_OUT`
instead of aborting; otherwise validate as a 1-byte result. -/
def checkChannel (resp : Option (List Nat)) : Nat :=
  match resp with
  | none => CHECK_CHANNEL_TIME_OUT
  | some buf => checkResult_1b buf

/-- `initConnection`, lines 342-362: send the initialisation frame, read
via `nb_read` (which aborts the process on timeout), validate as a 1-byte
result. -/
def initConnection (resp : Option (List Nat)) : Except String Nat :=
  match resp with
  | none => Except.error chTimeoutMsg
  | some buf => Except.ok (checkResult_1b buf)

/-- `closeConnection`, lines 365-380: send the termination frame, read
via `nb_read`, validate as a 1-byte result. -/
def closeConnection (resp : Option (List Nat)) : Except String Nat :=
  match resp with
  | none => Except.error chTimeoutMsg
  | some buf => Except.ok (checkResult_1b buf)

/-- `getU`, lines 397-428: validate the response as a 3x3-byte result and,
only when validation returns `OK`, overwrite the output vector with the
three decoded voltages (scale 100.0); always return the validation
code. -/
def getU (resp : Option (List Nat)) (U : P3V) : Except String (Nat × P3V) :=
  match resp with
  | none => Except.error chTimeoutMsg
  | some buf =>
    let c := checkResult_3x3b buf
    Except.ok (c,
      if c = OK then
        { p1 := B3F (buf.getD 1 0) (buf.getD 2 0) (buf.getD 3 0) 100
          p2 := B3F (buf.getD 4 0) (buf.getD 5 0) (buf.getD 6 0) 100
          p3 := B3F (buf.getD 7 0) (buf.getD 8 0) (buf.getD 9 0) 100 }
      else U)

/-- `getI`, lines 431-462: as `getU` with scale 1000.0. -/
def getI (resp : Option (List Nat)) (I : P3V) : Except String (Nat × P3V) :=
  match resp with
  | none => Except.error chTimeoutMsg
  | some buf =>
    let c := checkResult_3x3b buf
    Except.ok (c,
      if c = OK then
        { p1 := B3F (buf.getD 1 0) (buf.getD 2 0) (buf.getD 3 0) 1000
          p2 := B3F (buf.getD 4 0) (buf.getD 5 0) (buf.getD 6 0) 1000
          p3 := B3F (buf.getD 7 0) (buf.getD 8 0) (buf.getD 9 0) 1000 }
      else I)

/-- `getCosF`, lines 465-497: validate as a sum-plus-3x3-byte result and
decode sum and phases with scale 1000.0. -/
def getCosF (resp : Option (List Nat)) (C : P3VS) : Except String (Nat × P3VS) :=
  match resp with
  | none => Except.error chTimeoutMsg
  | some buf =>
    let c := checkResult_4x3b buf
    Except.ok (c,
      if c = OK then
        { sum := B3F (buf.getD 1 0) (buf.getD 2 0) (buf.getD 3 0) 1000
          p1 := B3F (buf.getD 4 0) (buf.getD 5 0) (buf.getD 6 0) 1000
          p2 := B3F (buf.getD 7 0) (buf.getD 8 0) (buf.getD 9 0) 1000
          p3 := B3F (buf.getD 10 0) (buf.getD 11 0) (buf.getD 12 0) 1000 }
      else C)

/-- `getF`, lines 500-529: validate as a 3-byte result and decode the
scalar frequency with scale 100.0. -/
def getF (resp : Option (List Nat)) (f : ℚ) : Except String (Nat × ℚ) :=
  match resp with
  | none => Except.error chTimeoutMsg
  | some buf =>
    let c := checkResult_3b buf
    Except.ok (c,
      if c = OK then B3F (buf.getD 1 0) (buf.getD 2 0) (buf.getD 3 0) 100 else f)

/-- `getA`, lines 532-563: as `getU` (phase angles, scale 100.0). -/
def getA (resp : Option (List Nat)) (A : P3V) : Except String (Nat × P3V) :=
  match resp with
  | none => Except.error chTimeoutMsg
  | some buf =>
    let c := checkResult_3x3b buf
    Except.ok (c,
      if c = OK then
        { p1 := B3F (buf.getD 1 0) (buf.getD 2 0) (buf.getD 3 0) 100
          p2 := B3F (buf.getD 4 0) (buf.getD 5 0) (buf.getD 6 0) 100
          p3 := B3F (buf.getD 7 0) (buf.getD 8 0) (buf.getD 9 0) 100 }
      else A)

/-- `getP`, lines 566-598: active power, as `getCosF`. -/
def getP (resp : Option (List Nat)) (P : P3VS) : Except String (Nat × P3VS) :=
  match resp with
  | none => Except.error chTimeoutMsg
  | some buf =>
    let c := checkResult_4x3b buf
    Except.ok (c,
      if c = OK then
        { sum := B3F (buf.getD 1 0) (buf.getD 2 0) (buf.getD 3 0) 1000
          p1 := B3F (buf.getD 4 0) (buf.getD 5 0) (buf.getD 6 0) 1000
          p2 := B3F (buf.getD 7 0) (buf.getD 8 0) (buf.getD 9 0) 1000
          p3 := B3F (buf.getD 10 0) (buf.getD 11 0) (buf.getD 12 0) 1000 }
      else P)

/-- `getS`, lines 601-633: reactive power, as `getCosF`. -/
def getS (resp : Option (List Nat)) (S : P3VS) : Except String (Nat × P3VS) :=
  match resp with
  | none => Except.error chTimeoutMsg
  | some buf =>
    let c := checkResult_4x3b buf
    Except.ok (c,
      if c = OK then
        { sum := B3F (buf.getD 1 0) (buf.getD 2 0) (buf.getD 3 0) 1000
          p1 := B3F (buf.getD 4 0) (buf.getD 5 0) (buf.getD 6 0) 1000
          p2 := B3F (buf.getD 7 0) (buf.getD 8 0) (buf.getD 9 0) 1000
          p3 := B3F (buf.getD 10 0) (buf.getD 11 0) (buf.getD 12 0) 1000 }
      else S)

/-- `getW`, lines 639-671: validate as a 4-byte-per-field result and
decode sum and phases through `B4F` with scale 1000.0. -/
def getW (resp : Option (List Nat)) (W : P3VS) : Except String (Nat × P3VS) :=
  match resp with
  | none => Except.error chTimeoutMsg
  | some buf =>
    let c := checkResult_4x4b buf
    Except.ok (c,
      if c = OK then
        { sum := B4F (buf.getD 1 0) (buf.getD 2 0) (buf.getD 3 0) (buf.getD 4 0) 1000
          p1 := B4F (buf.getD 5 0) (buf.getD 6 0) (buf.getD 7 0) (buf.getD 8 0) 1000
          p2 := B4F (buf.getD 9 0) (buf.getD 10 0) (buf.getD 11 0) (buf.getD 12 0) 1000
          p3 := B4F (buf.getD 13 0) (buf.getD 14 0) (buf.getD 15 0) (buf.getD 16 0) 1000 }
      else W)

/-- One command of the success branch of `main`: the frame written to the
device, the behaviour on the single response it consumes, and the message
`exitFailure` prints when the returned code is not `OK`. -/
structure Step where
  frame : List Nat
  run : Option (List Nat) → MeterState → Except String (Nat × MeterState)
  failMsg : String

/-- The second `checkChannel` call of `main` (line 728). -/
def probe2Step : Step :=
  { frame := testCmd
    run := fun resp st => Except.ok (checkChannel resp, st)
    failMsg := "Power meter communication channel test failed." }

/-- The `initConnection` call of `main` (line 731). -/
def initStep : Step :=
  { frame := initCmd
    run := fun resp st => (initConnection resp).map (fun c => (c, st))
    failMsg := "Power meter connection initialisation error." }

/-- The `getU` call of `main` (line 735). -/
def uStep : Step :=
  { frame := getUCmd
    run := fun resp st => (getU resp st.U).map (fun r => (r.1, { st with U := r.2 }))
    failMsg := "Cannot collect voltage data." }

/-- The `getI` call of `main` (line 739). -/
def iStep : Step :=
  { frame := getICmd
    run := fun resp st => (getI resp st.I).map (fun r => (r.1, { st with I := r.2 }))
    failMsg := "Cannot collect current data." }

/-- The `getCosF` call of `main` (line 743). -/
def cosStep : Step :=
  { frame := getCosCmd
    run := fun resp st => (getCosF resp st.C).map (fun r => (r.1, { st with C := r.2 }))
    failMsg := "Cannot collect cos(f) data." }

/-- The `getF` call of `main` (line 747). -/
def fStep : Step :=
  { frame := getFCmd
    run := fun resp st => (getF resp st.f).map (fun r => (r.1, { st with f := r.2 }))
    failMsg := "Cannot collect grid frequency data." }

/-- The `getA` call of `main` (line 751). -/
def aStep : Step :=
  { frame := getACmd
    run := fun resp st => (getA resp st.A).map (fun r => (r.1, { st with A := r.2 }))
    failMsg := "Cannot collect phase angles data." }

/-- The `getP` call of `main` (line 755). -/
def pStep : Step :=
  { frame := getPCmd
    run := fun resp st => (getP resp st.P).map (fun r => (r.1, { st with P := r.2 }))
    failMsg := "Cannot collect active power consumption data." }

/-- The `getS` call of `main` (line 759). -/
def sStep : Step :=
  { frame := getSCmd
    run := fun resp st => (getS resp st.S).map (fun r => (r.1, { st with S := r.2 }))
    failMsg := "Cannot collect reactive power consumption data." }

/-- The `getW(fd, &PR, PP_RESET, 0, 0)` call of `main` (line 763). -/
def wrStep : Step :=
  { frame := getWCmd PP_RESET 0 0
    run := fun resp st => (getW resp st.PR).map (fun r => (r.1, { st with PR := r.2 }))
    failMsg := "Cannot collect power counters data." }

/-- The `getW(fd, &PY, PP_YESTERDAY, 0, 0)` call of `main` (line 764). -/
def wyStep : Step :=
  { frame := getWCmd PP_YESTERDAY 0 0
    run := fun resp st => (getW resp st.PY).map (fun r => (r.1, { st with PY := r.2 }))
    failMsg := "Cannot collect power counters data." }

/-- The `getW(fd, &PT, PP_TODAY, 0, 0)` call of `main` (line 765). -/
def wtStep : Step :=
  { frame := getWCmd PP_TODAY 0 0
    run := fun resp st => (getW resp st.PT).map (fun r => (r.1, { st with PT := r.2 }))
    failMsg := "Cannot collect power counters data." }

/-- The `closeConnection` call of `main` (line 768). -/
def byeStep : Step :=
  { frame := byeCmd
    run := fun resp st => (closeConnection resp).map (fun c => (c, st))
    failMsg := "Power meter connection closing error." }

/-- The straight-line command sequence of the `case OK` branch of `main`
(lines 727-769), in program order. -/
def sessionSteps : List Step :=
  [probe2Step, initStep, uStep, iStep, cosStep, fStep, aStep, pStep, sStep,
   wrStep, wyStep, wtStep, byeStep]

/-- The ten query steps of the session (everything between the channel
checks and the termination command). -/
def querySteps : List Step :=
  [uStep, iStep, cosStep, fStep, aStep, pStep, sStep, wrStep, wyStep, wtStep]

/-- Run the straight-line command sequence: each step writes its frame,
consumes one oracle entry, and either aborts (modelling `exitFailure`,
with the printed message) or, when the returned code is `OK`, continues
with the updated state.  The first component collects the frames actually
written. -/
def runSteps : List Step → List (Option (List Nat)) → MeterState →
    List (List Nat) × Except String MeterState
  | [], _, st => ([], Except.ok st)
  | s :: rest, rs, st =>
    match s.run (rs.headD none) st with
    | Except.error m => ([s.frame], Except.error m)
    | Except.ok (c, st') =>
      if c = OK then
        let r := runSteps rest rs.tail st'
        (s.frame :: r.1, r.2)
      else ([s.frame], Except.error s.failMsg)

/-- Observable outcome of one program run: the frames written to the
device in order, the process exit code, the failure message printed by
`exitFailure` (if any), whether the serial descriptor was released
(explicitly via `close` on the fall-through path, or by process
termination inside `exitFailure` -- the operating system closes every
open descriptor when `exit` runs, so this holds on every path), and the
final contents of the result variables. -/
structure SessionResult where
  trace : List (List Nat)
  exitCode : Nat
  message : Option String
  fdReleased : Bool
  final : MeterState
deriving DecidableEq

/-- The assignments of the `case CHECK_CHANNEL_TIME_OUT` branch of `main`
(lines 773-778): only the voltage, current, active power and reactive
power variables are set to zero; the cos(f), frequency, phase angle and
the three energy counter variables are left with whatever the stack
held. -/
def timeoutAssignments (st : MeterState) : MeterState :=
  { st with
    U := ⟨0, 0, 0⟩
    I := ⟨0, 0, 0⟩
    P := ⟨0, 0, 0, 0⟩
    S := ⟨0, 0, 0, 0⟩ }

/-- The protocol part of `main` (lines 725-798): the first `checkChannel`
probe is issued and its result switched on; `OK` runs the straight-line
sequence `sessionSteps`; `CHECK_CHANNEL_TIME_OUT` performs the zero
assignments and falls through to the normal exit; every other code aborts
with "Check channel failure.". -/
def runSession (rs : List (Option (List Nat))) (st : MeterState) : SessionResult :=
  let c0 := checkChannel (rs.headD none)
  if c0 = OK then
    match runSteps sessionSteps rs.tail st with
    | (tr, Except.ok st') =>
      { trace := testCmd :: tr, exitCode := EXIT_OK, message := none
        fdReleased := true, final := st' }
    | (tr, Except.error m) =>
      { trace := testCmd :: tr, exitCode := EXIT_FAIL, message := some m
        fdReleased := true, final := st }
  else if c0 = CHECK_CHANNEL_TIME_OUT then
    { trace := [testCmd], exitCode := EXIT_OK, message := none
      fdReleased := true, final := timeoutAssignments st }
  else
    { trace := [testCmd], exitCode := EXIT_FAIL, message := some "Check channel failure."
      fdReleased := true, final := st }

/-- The full frame sequence of a completely successful session. -/
def fullFrames : List (List Nat) := testCmd :: sessionSteps.map Step.frame

/-! ### Concrete oracle inputs -/

/-- A structurally valid 1-byte response whose status nibble is `OK`. -/
def okResp1b : List Nat := buildFrame [0, 0]

/-- A structurally valid 1-byte response whose status nibble is
`ILLEGAL_CMD`. -/
def illegalResp1b : List Nat := buildFrame [0, 1]

/-- A structurally valid 3-byte (6 total) response with zero payload. -/
def okResp3b : List Nat := buildFrame [0, 0, 0, 0]

/-- A structurally valid 3x3-byte (12 total) response with zero payload. -/
def okResp3x3b : List Nat := buildFrame (List.replicate 10 0)

/-- A structurally valid sum-plus-3x3-byte (15 total) response with zero
payload. -/
def okResp4x3b : List Nat := buildFrame (List.replicate 13 0)

/-- A structurally valid 4x4-byte (18 total) response with zero
payload. -/
def okResp4x4b : List Nat := buildFrame (List.replicate 17 0)

/-- A device oracle that answers every command of the session with a
structurally valid `OK` response of the expected shape. -/
def allOkResponses : List (Option (List Nat)) :=
  [some okResp1b, some okResp1b, some okResp1b,
   some okResp3x3b, some okResp3x3b, some okResp4x3b, some okResp3b,
   some okResp3x3b, some okResp4x3b, some okResp4x3b,
   some okResp4x4b, some okResp4x4b, some okResp4x4b,
   some okResp1b]

/-- All-zero initial contents for the result variables. -/
def zeroState : MeterState :=
  { U := ⟨0, 0, 0⟩, I := ⟨0, 0, 0⟩, A := ⟨0, 0, 0⟩
    C := ⟨0, 0, 0, 0⟩, P := ⟨0, 0, 0, 0⟩, S := ⟨0, 0, 0, 0⟩
    PR := ⟨0, 0, 0, 0⟩, PY := ⟨0, 0, 0, 0⟩, PT := ⟨0, 0, 0, 0⟩, f := 0 }

/-- All-one initial contents, modelling nonzero garbage on the stack. -/
def onesState : MeterState :=
  { U := ⟨1, 1, 1⟩, I := ⟨1, 1, 1⟩, A := ⟨1, 1, 1⟩
    C := ⟨1, 1, 1, 1⟩, P := ⟨1, 1, 1, 1⟩, S := ⟨1, 1, 1, 1⟩
    PR := ⟨1, 1, 1, 1⟩, PY := ⟨1, 1, 1, 1⟩, PT := ⟨1, 1, 1, 1⟩, f := 1 }

/-- The 13-command sequence asserted by the claim for the full success
path: a single probe followed by initialisation, the seven quantity
queries, the three energy counter queries and the termination command. -/
def claimedSuccessSequence : List (List Nat) :=
  [testCmd, initCmd, getUCmd, getICmd, getCosCmd, getFCmd, getACmd, getPCmd,
   getSCmd, getWCmd PP_RESET 0 0, getWCmd PP_YESTERDAY 0 0, getWCmd PP_TODAY 0 0,
   byeCmd]

/-! ### Helper lemmas on bit packing -/

/-- Splitting a bitwise or into an addition when the low part fits below
the shift amount. -/
theorem shiftLeft_lor_eq_add (n : Nat) :
    ∀ a b : Nat, b < 2 ^ n → (a <<< n) ||| b = a * 2 ^ n + b := by
  induction n with
  | zero =>
    intro a b hb
    interval_cases b
    simp
  | succ n ih =>
    intro a b hb
    have hb2 : b / 2 < 2 ^ n := by omega
    have hdecomp : Nat.bit (Nat.bodd b) (Nat.div2 b) = b := Nat.bit_decomp b
    have hshift : a <<< (n + 1) = Nat.bit false (a <<< n) := by
      simp [Nat.bit, Nat.shiftLeft_eq, Nat.pow_succ]
      ring
    have hmod := Nat.mod_two_of_bodd b
    have hdiv2 : Nat.div2 b = b / 2 := Nat.div2_val b
    calc (a <<< (n + 1)) ||| b
        = Nat.bit false (a <<< n) ||| Nat.bit (Nat.bodd b) (Nat.div2 b) := by
          rw [hshift, hdecomp]
      _ = Nat.bit (false || Nat.bodd b) ((a <<< n) ||| Nat.div2 b) := Nat.lor_bit _ _ _ _
      _ = Nat.bit (Nat.bodd b) (a * 2 ^ n + b / 2) := by
          rw [hdiv2, ih a (b / 2) hb2, Bool.false_or]
      _ = a * 2 ^ (n + 1) + b := by
          have hpow : a * 2 ^ (n + 1) = 2 * (a * 2 ^ n) := by ring
          cases hob : Nat.bodd b with
          | false =>
            rw [hob] at hmod
            simp only [Nat.bit, Bool.cond_false, Bool.toNat] at *
            omega
          | true =>
            rw [hob] at hmod
            simp only [Nat.bit, Bool.cond_true, Bool.toNat] at *
            omega

/-- Arithmetic reading of the 3-byte packing of `B3F`. -/
theorem pack3_eq (b0 b1 b2 : Nat) (h1 : b1 < 256) (h2 : b2 < 256) :
    (b0 <<< 16) ||| (b2 <<< 8) ||| b1 = b0 * 2 ^ 16 + b2 * 2 ^ 8 + b1 := by
  rw [Nat.lor_assoc]
  have hinner : (b2 <<< 8) ||| b1 = b2 * 2 ^ 8 + b1 :=
    shiftLeft_lor_eq_add 8 b2 b1 (by omega)
  rw [hinner]
  have houter : (b0 <<< 16) ||| (b2 * 2 ^ 8 + b1) = b0 * 2 ^ 16 + (b2 * 2 ^ 8 + b1) :=
    shiftLeft_lor_eq_add 16 b0 _ (by omega)
  rw [houter]
  ring

/-- Arithmetic reading of the 4-byte packing of `B4F`. -/
theorem pack4_eq (b0 b1 b2 b3 : Nat) (h0 : b0 < 256) (h2 : b2 < 256) (h3 : b3 < 256) :
    (b1 <<< 24) ||| (b0 <<< 16) ||| (b3 <<< 8) ||| b2 =
      b1 * 2 ^ 24 + b0 * 2 ^ 16 + b3 * 2 ^ 8 + b2 := by
  rw [Nat.lor_assoc, Nat.lor_assoc]
  have ha : (b3 <<< 8) ||| b2 = b3 * 2 ^ 8 + b2 :=
    shiftLeft_lor_eq_add 8 b3 b2 (by omega)
  rw [ha]
  have hb : (b0 <<< 16) ||| (b3 * 2 ^ 8 + b2) = b0 * 2 ^ 16 + (b3 * 2 ^ 8 + b2) :=
    shiftLeft_lor_eq_add 16 b0 _ (by omega)
  rw [hb]
  have hc : (b1 <<< 24) ||| (b0 * 2 ^ 16 + (b3 * 2 ^ 8 + b2)) =
      b1 * 2 ^ 24 + (b0 * 2 ^ 16 + (b3 * 2 ^ 8 + b2)) :=
    shiftLeft_lor_eq_add 24 b1 _ (by omega)
  rw [hc]
  ring

/-! ### Theorems for the claims about the checksum and the decoders -/

/-- Auxiliary: the source inner loop and the spec inner loop coincide. -/
theorem crcShifts_eq_specRounds : ∀ n x, crcShifts n x = crcSpecRounds n x := by
  have hstep : ∀ x, crcShift x = crcSpecRound x := by
    intro x
    unfold crcShift crcSpecRound
    rcases Nat.mod_two_eq_zero_or_one x with h | h
    · simp [Nat.and_one_is_mod, h, Nat.shiftRight_one]
    · simp [Nat.and_one_is_mod, h, Nat.shiftRight_one]
  intro n
  induction n with
  | zero => intro x; rfl
  | succ n ih =>
    intro x
    unfold crcShifts crcSpecRounds
    rw [hstep, ih]

/-- C3: for every byte sequence, the source checksum `ModRTU_CRC` equals
the value computed by the spec algorithm: accumulator initialised to
`0xFFFF`; each byte XORed into the accumulator followed by 8 iterations
of (shift right once, XORing with `0xA001` when the dropped low bit was
set); the final accumulator returned without byte-order
normalisation. -/
theorem claim_C3_checksum_algorithm (bytes : List Nat) :
    ModRTU_CRC bytes = crcSpec bytes := by
  unfold ModRTU_CRC crcSpec
  congr 1
  funext acc b
  exact crcShifts_eq_specRounds 8 (acc ^^^ b)

/-- C4: `B3F` decodes three bytes as the 24-bit integer
`b0 * 2^16 + b2 * 2^8 + b1` (positions 1 and 2 swapped) divided by the
scale, and `B4F` decodes four bytes as the 32-bit pattern
`b1 * 2^24 + b0 * 2^16 + b3 * 2^8 + b2` read as a signed C `int` divided
by the scale; in particular the vectors of the spec:
`decode3([0x01,0x02,0x03], 100.0) = 663.06` and
`decode4([0x01,0x02,0x03,0x04], 1000.0) = 33620.995`. -/
theorem claim_C4_decoders :
    (∀ b0 b1 b2 : Nat, b0 < 256 → b1 < 256 → b2 < 256 → ∀ factor : ℚ, 0 < factor →
      B3F b0 b1 b2 factor = ((b0 * 2 ^ 16 + b2 * 2 ^ 8 + b1 : Nat) : ℚ) / factor) ∧
    (∀ b0 b1 b2 b3 : Nat, b0 < 256 → b1 < 256 → b2 < 256 → b3 < 256 →
      ∀ factor : ℚ, 0 < factor →
      B4F b0 b1 b2 b3 factor =
        ((toInt32 (b1 * 2 ^ 24 + b0 * 2 ^ 16 + b3 * 2 ^ 8 + b2) : Int) : ℚ) / factor) ∧
    B3F 1 2 3 100 = 663.06 ∧ B4F 1 2 3 4 1000 = 33620.995 := by
  refine ⟨?_, ?_, ?_, ?_⟩
  · intro b0 b1 b2 h0 h1 h2 factor hf
    unfold B3F
    rw [pack3_eq b0 b1 b2 h1 h2]
  · intro b0 b1 b2 b3 h0 h1 h2 h3 factor hf
    unfold B4F
    rw [pack4_eq b0 b1 b2 b3 h0 h2 h3]
  · have hval : ((1 <<< 16) ||| (3 <<< 8) ||| 2 : Nat) = 66306 := by decide
    unfold B3F
    rw [hval]
    norm_num
  · have hval : ((2 <<< 24) ||| (1 <<< 16) ||| (4 <<< 8) ||| 3 : Nat) = 33620995 := by
      decide
    unfold B4F
    rw [hval]
    have hto : toInt32 33620995 = 33620995 := by decide
    rw [hto]
    norm_num

/-- Witness for C4 at the concrete bytes of the spec vectors. -/
theorem claim_C4_decoders_witness :
    B3F 1 2 3 100 = ((1 * 2 ^ 16 + 3 * 2 ^ 8 + 2 : Nat) : ℚ) / 100 ∧
    B4F 1 2 3 4 1000 =
      ((toInt32 (2 * 2 ^ 24 + 1 * 2 ^ 16 + 4 * 2 ^ 8 + 3) : Int) : ℚ) / 1000 := by
  constructor
  · exact claim_C4_decoders.1 1 2 3 (by decide) (by decide) (by decide) 100 (by norm_num)
  · exact claim_C4_decoders.2.1 1 2 3 4 (by decide) (by decide) (by decide) (by decide)
      1000 (by norm_num)

/-- C10: `B4F` reads the packed pattern as a signed integer: whenever the
byte at position 1 is at least `0x80` (and the scale is positive), the
decoded value is negative; `B3F` on the other hand is never negative for
a positive scale. -/
theorem claim_C10_signedness :
    (∀ b0 b1 b2 b3 : Nat, b0 < 256 → 0x80 ≤ b1 → b1 < 256 → b2 < 256 → b3 < 256 →
      ∀ factor : ℚ, 0 < factor → B4F b0 b1 b2 b3 factor < 0) ∧
    (∀ b0 b1 b2 : Nat, ∀ factor : ℚ, 0 < factor → 0 ≤ B3F b0 b1 b2 factor) := by
  constructor
  · intro b0 b1 b2 b3 h0 h1lo h1 h2 h3 factor hf
    unfold B4F
    rw [pack4_eq b0 b1 b2 b3 h0 h2 h3]
    set p : Nat := b1 * 2 ^ 24 + b0 * 2 ^ 16 + b3 * 2 ^ 8 + b2 with hp
    have hlo : 2 ^ 31 ≤ p := by
      have : 2 ^ 31 ≤ b1 * 2 ^ 24 := by
        calc (2 ^ 31 : Nat) = 128 * 2 ^ 24 := by norm_num
          _ ≤ b1 * 2 ^ 24 := Nat.mul_le_mul_right _ h1lo
      omega
    have hhi : p < 2 ^ 32 := by
      have h1' : b1 * 2 ^ 24 ≤ 255 * 2 ^ 24 := Nat.mul_le_mul_right _ (by omega)
      have h0' : b0 * 2 ^ 16 ≤ 255 * 2 ^ 16 := Nat.mul_le_mul_right _ (by omega)
      have h3' : b3 * 2 ^ 8 ≤ 255 * 2 ^ 8 := Nat.mul_le_mul_right _ (by omega)
      have hb2 : b2 ≤ 255 := by omega
      calc p ≤ 255 * 2 ^ 24 + 255 * 2 ^ 16 + 255 * 2 ^ 8 + 255 := by omega
        _ < 2 ^ 32 := by norm_num
    have hmod : p % 2 ^ 32 = p := Nat.mod_eq_of_lt hhi
    have hneg : toInt32 p < 0 := by
      unfold toInt32
      rw [hmod]
      have hnotlt : ¬ p < 2 ^ 31 := by omega
      rw [if_neg hnotlt]
      have : (p : Int) < 2 ^ 32 := by exact_mod_cast hhi
      omega
    refine div_neg_of_neg_of_pos ?_ hf
    exact_mod_cast hneg
  · intro b0 b1 b2 factor hf
    unfold B3F
    exact div_nonneg (Nat.cast_nonneg _) (le_of_lt hf)

/-- Witness for C10 at the concrete bytes `[0x00, 0x80, 0x00, 0x00]` and
`[0x00, 0x00, 0x00]`, scale 1000. -/
theorem claim_C10_signedness_witness :
    B4F 0 0x80 0 0 1000 < 0 ∧ 0 ≤ B3F 0 0 0 1000 := by
  constructor
  · exact claim_C10_signedness.1 0 0x80 0 0 (by decide) (by decide) (by decide)
      (by decide) (by decide) 1000 (by norm_num)
  · exact claim_C10_signedness.2 0 0 0 1000 (by norm_num)

/-! ### Theorems for the response validators -/

/-- Auxiliary: full case analysis of the common validator shape. -/
theorem checkFrame_cases (size : Nat) (final : List Nat → Nat) (buf : List Nat)
    (hfinal : ∀ b, final b < 256) :
    (checkFrame size final buf = WRONG_RESULT_SIZE ↔ buf.length ≠ size) ∧
    (buf.length = size →
      (checkFrame size final buf = WRONG_CRC ↔
        ModRTU_CRC (buf.take (size - 2)) ≠ embeddedCRC buf)) ∧
    (buf.length = size → ModRTU_CRC (buf.take (size - 2)) = embeddedCRC buf →
      checkFrame size final buf = final buf) := by
  by_cases hlen : buf.length = size
  · have hlen' : ¬ buf.length ≠ size := by omega
    by_cases hcrc : ModRTU_CRC (buf.take (size - 2)) = embeddedCRC buf
    · have hcrc' : ¬ ModRTU_CRC (buf.take (size - 2)) ≠ embeddedCRC buf := by
        exact fun h => h hcrc
      have hval : checkFrame size final buf = final buf := by
        unfold checkFrame
        rw [if_neg hlen', if_neg hcrc']
      refine ⟨?_, fun _ => ?_, fun _ _ => hval⟩
      · rw [hval]
        have := hfinal buf
        unfold WRONG_RESULT_SIZE
        constructor
        · intro h; omega
        · intro h; exact absurd hlen h
      · rw [hval]
        have := hfinal buf
        unfold WRONG_CRC
        constructor
        · intro h; omega
        · intro h; exact absurd hcrc h
    · have hval : checkFrame size final buf = WRONG_CRC := by
        unfold checkFrame
        rw [if_neg hlen', if_pos hcrc]
      refine ⟨?_, fun _ => ?_, fun _ hc => absurd hc hcrc⟩
      · rw [hval]
        unfold WRONG_CRC WRONG_RESULT_SIZE
        constructor
        · intro h; omega
        · intro h; exact absurd hlen h
      · rw [hval]
        exact ⟨fun _ => hcrc, fun _ => rfl⟩
  · have hval : checkFrame size final buf = WRONG_RESULT_SIZE := by
      unfold checkFrame
      rw [if_pos hlen]
    refine ⟨?_, fun h => absurd h hlen, fun h _ => absurd h hlen⟩
    rw [hval]
    exact ⟨fun _ => hlen, fun _ => rfl⟩

/-- C2: for every received buffer and expected response shape, the
validator returns `WRONG_RESULT_SIZE` exactly when the buffer length
differs from the exact length of the shape (regardless of content);
otherwise it returns `WRONG_CRC` exactly when the checksum recomputed
over all bytes except the trailing 2 differs from the embedded 2-byte
checksum; otherwise the 1-byte shape yields the low 4 bits of the status
byte and every multi-byte shape yields `OK`. -/
theorem claim_C2_validators (shape : RespShape) (buf : List Nat)
    (hb : ∀ b ∈ buf, b < 256) :
    (checkResult shape buf = WRONG_RESULT_SIZE ↔ buf.length ≠ respSize shape) ∧
    (buf.length = respSize shape →
      (checkResult shape buf = WRONG_CRC ↔
        ModRTU_CRC (buf.take (respSize shape - 2)) ≠ embeddedCRC buf)) ∧
    (buf.length = respSize shape →
      ModRTU_CRC (buf.take (respSize shape - 2)) = embeddedCRC buf →
      checkResult shape buf =
        match shape with
        | RespShape.r1b => buf.getD 1 0 &&& 0x0F
        | _ => OK) := by
  cases shape with
  | r1b =>
    have hfin : ∀ b : List Nat, b.getD 1 0 &&& 0x0F < 256 := by
      intro b
      have : b.getD 1 0 &&& 0x0F ≤ 0x0F := Nat.and_le_right
      omega
    exact checkFrame_cases 4 _ buf hfin
  | r3b => exact checkFrame_cases 6 (fun _ => OK) buf (fun _ => by norm_num [OK])
  | r3x3b => exact checkFrame_cases 12 (fun _ => OK) buf (fun _ => by norm_num [OK])
  | r4x3b => exact checkFrame_cases 15 (fun _ => OK) buf (fun _ => by norm_num [OK])
  | r4x4b => exact checkFrame_cases 19 (fun _ => OK) buf (fun _ => by norm_num [OK])

/-- Witness for C2: the 1-byte shape applied to a concrete well-formed
buffer with status nibble 0. -/
theorem claim_C2_validators_witness :
    (∀ b ∈ okResp1b, b < 256) ∧ checkResult RespShape.r1b okResp1b = OK := by
  refine ⟨by decide, ?_⟩
  have h := (claim_C2_validators RespShape.r1b okResp1b (by decide)).2.2
    (by decide) (by decide)
  rw [h]
  decide

/-! ### Theorems for frame construction -/

/-- The inner bit iteration keeps the accumulator below `2 ^ 16`. -/
theorem crcShift_lt (x : Nat) (h : x < 2 ^ 16) : crcShift x < 2 ^ 16 := by
  unfold crcShift
  have hdiv : x >>> 1 < 2 ^ 16 := by
    rw [Nat.shiftRight_one]
    omega
  split
  · exact Nat.bitwise_lt hdiv (by norm_num)
  · exact hdiv

/-- Iterated bit iterations keep the accumulator below `2 ^ 16`. -/
theorem crcShifts_lt : ∀ n x, x < 2 ^ 16 → crcShifts n x < 2 ^ 16 := by
  intro n
  induction n with
  | zero => intro x h; exact h
  | succ n ih => intro x h; exact ih (crcShift x) (crcShift_lt x h)

/-- The checksum of a byte sequence is a 16-bit value. -/
theorem ModRTU_CRC_lt (buf : List Nat) (hb : ∀ b ∈ buf, b < 256) :
    ModRTU_CRC buf < 2 ^ 16 := by
  unfold ModRTU_CRC
  suffices h : ∀ crc, crc < 2 ^ 16 →
      buf.foldl (fun crc b => crcShifts 8 (crc ^^^ b)) crc < 2 ^ 16 by
    exact h 0xFFFF (by norm_num)
  induction buf with
  | nil => intro crc h; simpa using h
  | cons b bs ih =>
    intro crc h
    rw [List.foldl_cons]
    have hb0 : b < 2 ^ 16 := by
      have := hb b (List.mem_cons_self b bs)
      omega
    have hxor : crc ^^^ b < 2 ^ 16 := Nat.bitwise_lt h hb0
    exact ih (fun x hx => hb x (List.mem_cons_of_mem b hx)) _ (crcShifts_lt 8 _ hxor)

/-- Recomputing the checksum of a built frame over all bytes except the
trailing 2 reproduces the embedded 2-byte checksum. -/
theorem buildFrame_roundTrip (body : List Nat) (hb : ∀ b ∈ body, b < 256) :
    ModRTU_CRC ((buildFrame body).take ((buildFrame body).length - 2)) =
      embeddedCRC (buildFrame body) := by
  have hlen : (buildFrame body).length = body.length + 2 := by
    simp [buildFrame, crcBytes]
  have htake : (buildFrame body).take ((buildFrame body).length - 2) = body := by
    rw [hlen]
    unfold buildFrame
    have : body.length + 2 - 2 = body.length := by omega
    rw [this]
    exact List.take_left body _
  rw [htake]
  set c := ModRTU_CRC body with hc
  have hclt : c < 2 ^ 16 := ModRTU_CRC_lt body hb
  have hlo : (buildFrame body).getD ((buildFrame body).length - 2) 0 = c % 256 := by
    rw [hlen]
    unfold buildFrame crcBytes
    have h2 : body.length + 2 - 2 = body.length := by omega
    rw [h2, List.getD_eq_getElem?_getD, List.getElem?_append_right (le_refl _)]
    simp
  have hhi : (buildFrame body).getD ((buildFrame body).length - 1) 0 = c / 256 % 256 := by
    rw [hlen]
    unfold buildFrame crcBytes
    have h2 : body.length + 2 - 1 = body.length + 1 := by omega
    rw [h2, List.getD_eq_getElem?_getD,
      List.getElem?_append_right (by omega : body.length ≤ body.length + 1)]
    have h3 : body.length + 1 - body.length = 1 := by omega
    rw [h3]
    simp
  unfold embeddedCRC word16
  rw [hlo, hhi]
  have hdiv : c / 256 < 256 := by omega
  rw [Nat.mod_eq_of_lt hdiv]
  exact (Nat.mod_add_div c 256).symm

/-- Byte bound for the body of a generic `ReadParamCmd`. -/
theorem readParamBody_lt (command paramId bwri : Nat) :
    ∀ b ∈ [PM_ADDRESS, command % 256, paramId % 256, bwri % 256], b < 256 := by
  intro b hbmem
  have h256 : (0 : Nat) < 256 := by norm_num
  simp only [List.mem_cons, List.not_mem_nil, or_false] at hbmem
  rcases hbmem with h | h | h | h <;> subst h
  · norm_num [PM_ADDRESS]
  · exact Nat.mod_lt _ h256
  · exact Nat.mod_lt _ h256
  · exact Nat.mod_lt _ h256

/-- C8: for every command kind -- probe, initialisation, termination,
generic parameter read and energy counter read -- recomputing the
checksum over all bytes of the built request frame except the trailing 2
reproduces the 2-byte checksum embedded at the end of the frame. -/
theorem claim_C8_frame_roundtrip :
    (ModRTU_CRC (testCmd.take (testCmd.length - 2)) = embeddedCRC testCmd) ∧
    (ModRTU_CRC (initCmd.take (initCmd.length - 2)) = embeddedCRC initCmd) ∧
    (ModRTU_CRC (byeCmd.take (byeCmd.length - 2)) = embeddedCRC byeCmd) ∧
    (∀ command paramId bwri,
      ModRTU_CRC ((readParamCmd command paramId bwri).take
          ((readParamCmd command paramId bwri).length - 2)) =
        embeddedCRC (readParamCmd command paramId bwri)) ∧
    (∀ periodId month tariffNo,
      ModRTU_CRC ((getWCmd periodId month tariffNo).take
          ((getWCmd periodId month tariffNo).length - 2)) =
        embeddedCRC (getWCmd periodId month tariffNo)) := by
  refine ⟨?_, ?_, ?_, ?_, ?_⟩
  · exact buildFrame_roundTrip _ (by decide)
  · exact buildFrame_roundTrip _ (by decide)
  · exact buildFrame_roundTrip _ (by decide)
  · intro command paramId bwri
    exact buildFrame_roundTrip _ (readParamBody_lt command paramId bwri)
  · intro periodId month tariffNo
    unfold getWCmd
    exact buildFrame_roundTrip _ (readParamBody_lt _ _ _)

/-! ### Theorems for the session controller -/

set_option maxRecDepth 10000

/-- The frames written by the straight-line sequence always form a prefix
of the full planned frame list: a failing step cuts the remainder off. -/
theorem runSteps_trace_initial_segment (steps : List Step) :
    ∀ rs st, ∃ rest, steps.map Step.frame = (runSteps steps rs st).1 ++ rest := by
  induction steps with
  | nil => intro rs st; exact ⟨[], rfl⟩
  | cons s ss ih =>
    intro rs st
    cases h : s.run (rs.headD none) st with
    | error m =>
      refine ⟨ss.map Step.frame, ?_⟩
      simp only [runSteps, h, List.map_cons]
      rfl
    | ok p =>
      obtain ⟨c, st'⟩ := p
      by_cases hc : c = OK
      · obtain ⟨r, hr⟩ := ih rs.tail st'
        refine ⟨r, ?_⟩
        simp only [runSteps, h, List.map_cons]
        rw [if_pos hc]
        show s.frame :: ss.map Step.frame = s.frame :: (runSteps ss rs.tail st').1 ++ r
        rw [List.cons_append, hr]
      · refine ⟨ss.map Step.frame, ?_⟩
        simp only [runSteps, h, List.map_cons]
        rw [if_neg hc]
        rfl

/-- C1, behaviour of the code at the failing input: when the very first
probe times out, the session writes no frame beyond the probe and exits
successfully, but only the voltage, current, active power and reactive
power variables are set to `0.0`; the cos(f), phase angle, frequency and
the three energy counter variables keep their indeterminate initial
contents (here seeded with 1), contradicting the claim that every phase
quantity of the result equals `0.0`.  The claim that zero further
commands are issued does hold. -/
theorem claim_C1_probe_timeout_behaviour :
    (runSession [none] onesState).trace = [testCmd] ∧
    (runSession [none] onesState).exitCode = EXIT_OK ∧
    (runSession [none] onesState).final.U = ⟨0, 0, 0⟩ ∧
    (runSession [none] onesState).final.I = ⟨0, 0, 0⟩ ∧
    (runSession [none] onesState).final.P = ⟨0, 0, 0, 0⟩ ∧
    (runSession [none] onesState).final.S = ⟨0, 0, 0, 0⟩ ∧
    (runSession [none] onesState).final.C = ⟨1, 1, 1, 1⟩ ∧
    (runSession [none] onesState).final.A = ⟨1, 1, 1⟩ ∧
    (runSession [none] onesState).final.f = 1 ∧
    (runSession [none] onesState).final.PR = ⟨1, 1, 1, 1⟩ ∧
    (runSession [none] onesState).final.PY = ⟨1, 1, 1, 1⟩ ∧
    (runSession [none] onesState).final.PT = ⟨1, 1, 1, 1⟩ := by decide

/-- C5, counterexample to the claim as stated: on an all-`OK` oracle the
session succeeds, but the frame sequence it writes is not the claimed
13-command sequence (the probe frame is written twice, by the two
`checkChannel` calls of `main`). -/
theorem claim_C5_counterexample :
    (runSession allOkResponses zeroState).exitCode = EXIT_OK ∧
    (runSession allOkResponses zeroState).trace ≠ claimedSuccessSequence := by decide

/-- C5 as amended: on the full success path the session issues exactly
probe, probe (the channel test runs twice), initialisation, the seven
quantity queries in order, the three energy counter queries and the
termination command; and on every oracle the written frames form a prefix
of that sequence, so any failure aborts the remainder in order. -/
theorem claim_C5_amended_sequence :
    fullFrames = [testCmd, testCmd, initCmd, getUCmd, getICmd, getCosCmd, getFCmd,
      getACmd, getPCmd, getSCmd, getWCmd PP_RESET 0 0, getWCmd PP_YESTERDAY 0 0,
      getWCmd PP_TODAY 0 0, byeCmd] ∧
    (runSession allOkResponses zeroState).trace = fullFrames ∧
    (runSession allOkResponses zeroState).exitCode = EXIT_OK ∧
    (∀ rs st, ∃ rest, fullFrames = (runSession rs st).trace ++ rest) := by
  refine ⟨by decide, by decide, by decide, ?_⟩
  intro rs st
  unfold runSession
  by_cases h0 : checkChannel (rs.headD none) = OK
  · rw [if_pos h0]
    obtain ⟨r, hr⟩ := runSteps_trace_initial_segment sessionSteps rs.tail st
    cases hrun : runSteps sessionSteps rs.tail st with
    | mk tr out =>
      rw [hrun] at hr
      cases out with
      | ok st' =>
        refine ⟨r, ?_⟩
        simp only [fullFrames]
        rw [hr]
        rfl
      | error m =>
        refine ⟨r, ?_⟩
        simp only [fullFrames]
        rw [hr]
        rfl
  · rw [if_neg h0]
    by_cases h1 : checkChannel (rs.headD none) = CHECK_CHANNEL_TIME_OUT
    · rw [if_pos h1]
      exact ⟨sessionSteps.map Step.frame, rfl⟩
    · rw [if_neg h1]
      exact ⟨sessionSteps.map Step.frame, rfl⟩

/-- C6: when both channel probes validate `OK` and the initialisation
response carries any non-`OK` status, the session aborts having written
only the two probe frames and the initialisation frame -- no query
command is issued -- the process exits with `EXIT_FAIL` printing the
initialisation failure message, and the serial descriptor is released. -/
theorem claim_C6_init_failure (b0 b1 b2 : List Nat) (st : MeterState)
    (h0 : checkResult_1b b0 = OK) (h1 : checkResult_1b b1 = OK)
    (h2 : checkResult_1b b2 ≠ OK) :
    (runSession [some b0, some b1, some b2] st).trace = [testCmd, testCmd, initCmd] ∧
    (runSession [some b0, some b1, some b2] st).exitCode = EXIT_FAIL ∧
    (runSession [some b0, some b1, some b2] st).message =
      some "Power meter connection initialisation error." ∧
    (runSession [some b0, some b1, some b2] st).fdReleased = true := by
  simp [runSession, runSteps, sessionSteps, probe2Step, initStep, checkChannel,
    initConnection, Except.map, h0, h1, h2]

/-- Witness for C6 with the concrete `ILLEGAL_CMD` status response. -/
theorem claim_C6_init_failure_witness :
    checkResult_1b illegalResp1b ≠ OK ∧
    (runSession [some okResp1b, some okResp1b, some illegalResp1b] zeroState).trace =
      [testCmd, testCmd, initCmd] := by
  refine ⟨by decide, ?_⟩
  exact (claim_C6_init_failure okResp1b okResp1b illegalResp1b zeroState
    (by decide) (by decide) (by decide)).1

/-- C7, behaviour of the code at the failing input: after each transmit
the program calls `usleep(TIME_OUT)`; `usleep` takes microseconds, so the
realised inter-command delay is 50 microseconds, not the 50 milliseconds
(50000 microseconds) stated by the claim and by the comment on the
`TIME_OUT` constant in the source. -/
theorem claim_C7_delay_units :
    usleepMicroseconds = TIME_OUT ∧ usleepMicroseconds = 50 ∧
    usleepMicroseconds ≠ 50 * 1000 := by decide

/-- C9: for each of the ten query steps of the session, whenever the
response validation code returned alongside the updated state is not
`OK`, the state is returned unchanged: the caller-supplied output
structure is written only on `OK`. -/
theorem claim_C9_no_write_unless_ok (s : Step) (hs : s ∈ querySteps)
    (resp : Option (List Nat)) (st : MeterState) (c : Nat) (st' : MeterState)
    (hrun : s.run resp st = Except.ok (c, st')) (hc : c ≠ OK) : st' = st := by
  simp only [querySteps, List.mem_cons, List.not_mem_nil, or_false] at hs
  rcases hs with rfl | rfl | rfl | rfl | rfl | rfl | rfl | rfl | rfl | rfl <;>
    cases resp with
    | none =>
      simp [uStep, iStep, cosStep, fStep, aStep, pStep, sStep, wrStep, wyStep,
        wtStep, getU, getI, getCosF, getF, getA, getP, getS, getW, Except.map] at hrun
    | some buf =>
      simp only [uStep, iStep, cosStep, fStep, aStep, pStep, sStep, wrStep, wyStep,
        wtStep, getU, getI, getCosF, getF, getA, getP, getS, getW, Except.map,
        Except.ok.injEq, Prod.mk.injEq] at hrun
      obtain ⟨hcode, hstate⟩ := hrun
      subst hcode
      rw [if_neg hc] at hstate
      exact hstate.symm

/-- Witness for C9: the voltage step with an empty (wrong-size) response
buffer leaves the state untouched. -/
theorem claim_C9_no_write_unless_ok_witness :
    uStep ∈ querySteps ∧
    uStep.run (some []) zeroState = Except.ok (WRONG_RESULT_SIZE, zeroState) ∧
    zeroState = zeroState := by
  refine ⟨by simp [querySteps], rfl, ?_⟩
  exact claim_C9_no_write_unless_ok uStep (by simp [querySteps]) (some [])
    zeroState WRONG_RESULT_SIZE zeroState rfl (by decide)
